import Mathlib

/-!
Verification of the transaction/savepoint routing engine of
`@chax-at/transactional-prisma-testing` (file `src/prisma.testing.helper.ts`).

The embedding below models the fields of the `PrismaTestingHelper` class as a
state record, its methods as pure state-transition functions, and the SQL
savepoint commands it issues through `$executeRawUnsafe` as an explicit trace.
Asynchronous suspension is modelled only where a claim needs it: the value of
`currentPrismaTransactionClient` observed after the `await` on the transaction
lock is an explicit parameter (`clientAtCheck`), which equals the entry
snapshot in a run without concurrent lifecycle activity.
-/

deriving instance DecidableEq for Except

namespace PrismaTesting

/-- Identity of a Prisma transaction client object (reference equality of the
`prisma` callback argument in the source). -/
abbrev ClientId := Nat

/-- `MAX_ACTIVE_SAVEPOINTS` from the source: savepoints are released in
batches when reaching this count, staying below Postgres's
`PGPROC_MAX_CACHED_SUBXIDS` (64). -/
def MAX_ACTIVE_SAVEPOINTS : Nat := 56

/-- The savepoint name format of the source: a fixed literal plus the
monotonically increasing counter value. -/
def savepointName (n : Nat) : String := "trnsctl_tst_" ++ toString n

/-- Errors thrown by the helper, plus `user` for arbitrary failures raised by
the wrapped operation and `rollbackSentinel` for the internal rollback error
symbol of `startNewTransaction`. -/
inductive Err where
  | noActiveTransaction
  | transactionChanged
  | invalidTransactionArgument
  | alreadyActive
  | rollbackSentinel
  | user (code : Nat)
  deriving DecidableEq, Repr

/-- Values produced by wrapped operations: a scalar query result, or the
positional array built by the batch form of `$transaction`. -/
inductive Val where
  | num (n : Nat)
  | vlist (vs : List Nat)
  deriving DecidableEq, Repr

/-- A raw savepoint command issued through `$executeRawUnsafe`, recording the
transaction client it was issued against and the numeric savepoint ordinal
embedded in the name. -/
inductive SqlCmd where
  | savepoint (client : ClientId) (sp : Nat)
  | release (client : ClientId) (sp : Nat)
  | rollbackTo (client : ClientId) (sp : Nat)
  deriving DecidableEq, Repr

/-- The client a command was issued against. -/
def SqlCmd.target : SqlCmd → ClientId
  | .savepoint c _ => c
  | .release c _ => c
  | .rollbackTo c _ => c

/-- The mutable fields of a `PrismaTestingHelper` instance:
`currentPrismaTransactionClient`, `endCurrentTransactionPromise` (as the
identity of the stored resolver), `savepointId`, `transactionLock` (as the
identity of the promise currently occupying the slot, `none` when free), and
a counter supplying fresh lock-promise identities. -/
structure HState where
  currentClient : Option ClientId
  endSignal : Option Nat
  savepointId : Nat
  transactionLock : Option Nat
  nextLockId : Nat
  deriving DecidableEq, Repr

/-- Everything observable about one `wrapInSavepoint` call: its returned or
thrown result, the SQL it issued, the helper state it leaves behind, which
lock promise it installed (if any), which one it resolved in the `finally`
block, and whether the acquisition found the slot occupied and had to wait. -/
structure WrapResult where
  result : Except Err Val
  trace : List SqlCmd
  state : HState
  lockAcquired : Option Nat
  lockResolved : Option Nat
  waited : Bool
  deriving DecidableEq, Repr

/-- The batch-release step at the top of `wrapInSavepoint`'s `try` block:
`savepointIdToRelease = savepointId - MAX_ACTIVE_SAVEPOINTS`, and a release is
issued iff `savepointIdToRelease >= 0 && savepointIdToRelease %
MAX_ACTIVE_SAVEPOINTS === 0` (in Nat arithmetic: the counter is at least
`MAX_ACTIVE_SAVEPOINTS` and the difference is a multiple of it). -/
def batchReleaseCmds (client : ClientId) (savepointId : Nat) : List SqlCmd :=
  if MAX_ACTIVE_SAVEPOINTS ≤ savepointId ∧
      (savepointId - MAX_ACTIVE_SAVEPOINTS) % MAX_ACTIVE_SAVEPOINTS = 0 then
    [SqlCmd.release client (savepointId - MAX_ACTIVE_SAVEPOINTS)]
  else []

/-- `wrapInSavepoint`, translated statement by statement from the source.

* `ambient` is the value held by the `AsyncLocalStorage` for the current call
  chain (`{ transactionSavepoint }`), so `isInTransaction` is its `isSome`.
* `transactionClient` is the snapshot of `currentPrismaTransactionClient`
  taken on entry; `clientAtCheck` is the value of that same field when the
  checks inside the `try` block execute, after the `await` on the transaction
  lock (they coincide unless a concurrent task changed the session meanwhile).
* `funcResult` abstracts the outcome of the wrapped operation `func`, which
  runs with the ambient context set to the new savepoint's name. State
  changes made by nested calls inside `func` are not tracked by this
  single-call model; the recursive counter threading is modelled by `runPlan`
  below.
* SQL commands are modelled as always succeeding; the trace records them in
  issue order. The `finally` block unconditionally clears the lock slot and
  resolves the lock promise this call installed, if any. -/
def wrapInSavepoint (s : HState) (ambient : Option String)
    (clientAtCheck : Option ClientId) (funcResult : Except Err Val) : WrapResult :=
  let transactionClient := s.currentClient
  let isInTransaction := ambient.isSome
  let lockResolve : Option Nat := if isInTransaction then none else some s.nextLockId
  let nextLockId' := if isInTransaction then s.nextLockId else s.nextLockId + 1
  let body : Except Err Val × List SqlCmd × Nat :=
    match transactionClient with
    | none => (Except.error Err.noActiveTransaction, [], s.savepointId)
    | some c =>
      if clientAtCheck ≠ some c then
        (Except.error Err.transactionChanged, [], s.savepointId)
      else
        let pre := batchReleaseCmds c s.savepointId
        match funcResult with
        | Except.ok v =>
            (Except.ok v, pre ++ [SqlCmd.savepoint c s.savepointId], s.savepointId + 1)
        | Except.error e =>
            (Except.error e,
              pre ++ [SqlCmd.savepoint c s.savepointId,
                SqlCmd.rollbackTo c s.savepointId],
              s.savepointId + 1)
  { result := body.1
    trace := body.2.1
    state := { s with savepointId := body.2.2, transactionLock := none,
                      nextLockId := nextLockId' }
    lockAcquired := lockResolve
    lockResolved := lockResolve
    waited := !isInTransaction && s.transactionLock.isSome }

/-- Result of a lifecycle method: the value returned or error thrown, the
helper state left behind, and the end-signal resolver invoked, if any. -/
structure StepResult where
  result : Except Err Unit
  state : HState
  signaled : Option Nat
  deriving DecidableEq, Repr

/-- State effects of `startNewTransaction` up to the point its returned
promise resolves, for the run in which the underlying client does invoke the
interactive-transaction callback: the guard on `endCurrentTransactionPromise`
throws before any state is touched; otherwise `savepointId` is reset to 0,
the callback stores the new transaction client and installs the end-signal
resolver, and the outer promise resolves. -/
def startNewTransactionStep (s : HState) (newClient : ClientId)
    (newSignal : Nat) : StepResult :=
  if s.endSignal.isSome then
    { result := Except.error Err.alreadyActive, state := s, signaled := none }
  else
    { result := Except.ok ()
      state := { s with savepointId := 0, currentClient := some newClient,
                        endSignal := some newSignal }
      signaled := none }

/-- `rollbackCurrentTransaction`, translated from the source: throws when no
end-signal resolver is stored; otherwise invokes the stored resolver and
clears it. Note that `currentPrismaTransactionClient` is not touched. -/
def rollbackCurrentTransaction (s : HState) : StepResult :=
  match s.endSignal with
  | none => { result := Except.error Err.noActiveTransaction, state := s,
              signaled := none }
  | some sig =>
      { result := Except.ok ()
        state := { s with endSignal := none }
        signaled := some sig }

/-- Where the proxy's `get` trap routes one property access. -/
inductive Route where
  | original
  | transactionProxy
  | delegateProxy
  | transactionClientValue
  deriving DecidableEq, Repr

/-- The facts about the accessed property that the `get` trap inspects:
whether the target's own descriptor is non-configurable and non-writable,
whether the property is `$transaction`, whether the transaction client has a
non-null value for it, and whether that value duck-types as a Prisma delegate
(an object with a `findFirst` function). -/
structure PropView where
  frozen : Bool
  isTransactionProp : Bool
  onTransactionClient : Bool
  delegateLike : Bool
  deriving DecidableEq, Repr

/-- The `get` trap of the proxy client, translated branch by branch from the
constructor in the source. -/
def proxyGet (s : HState) (v : PropView) : Route :=
  if s.currentClient = none then Route.original
  else if v.frozen then Route.original
  else if v.isTransactionProp then Route.transactionProxy
  else if v.onTransactionClient then
    (if v.delegateLike then Route.delegateProxy else Route.transactionClientValue)
  else Route.original

/-- The argument given to the proxied `$transaction`: an array of deferred
operations (each modelled by its settlement), a callback receiving the
current transaction client, or anything else. -/
inductive TxnArg where
  | queries (qs : List (Except Err Nat))
  | callback (f : Option ClientId → Except Err Val)
  | other

/-- The `for (const query of args) ret.push(await query)` loop: awaits each
deferred operation in order, collecting results positionally; the first
rejection aborts the loop and propagates. -/
def collectQueries : List (Except Err Nat) → Except Err (List Nat)
  | [] => Except.ok []
  | q :: rest =>
      match q with
      | Except.error e => Except.error e
      | Except.ok v =>
          match collectQueries rest with
          | Except.error e => Except.error e
          | Except.ok vs => Except.ok (v :: vs)

/-- The body of `transactionProxyFunction`'s wrapped closure: dispatch on the
argument shape (`Array.isArray`, `typeof args === 'function'`, otherwise
throw the invalid-argument error). The callback receives
`this.currentPrismaTransactionClient` as read when the body runs. -/
def transactionBody (liveClient : Option ClientId) (args : TxnArg) :
    Except Err Val :=
  match args with
  | TxnArg.queries qs => (collectQueries qs).map Val.vlist
  | TxnArg.callback f => f liveClient
  | TxnArg.other => Except.error Err.invalidTransactionArgument

/-- `transactionProxyFunction`: the whole dispatch runs inside one
`wrapInSavepoint` call. -/
def transactionProxyFunction (s : HState) (ambient : Option String)
    (clientAtCheck : Option ClientId) (args : TxnArg) : WrapResult :=
  wrapInSavepoint s ambient clientAtCheck (transactionBody s.currentClient args)

/-- How the underlying client's `$transaction` behaves when
`startNewTransaction` invokes it: either it invokes the interactive callback,
or the promise it returned rejects without the callback ever running. -/
inductive TxnStartBehavior where
  | callbackInvoked
  | rejectedBeforeCallback (e : Err)

/-- Settlement of a promise. -/
inductive PromiseFate where
  | resolved
  | rejected (e : Err)
  | pending
  deriving DecidableEq, Repr

/-- What becomes of one `startNewTransaction` call: the settlement of the
promise it returned, and any error left as an unhandled rejection of the
inner `$transaction(...).catch(...)` chain. -/
structure StartOutcome where
  fate : PromiseFate
  unhandledRejection : Option Err
  deriving DecidableEq, Repr

/-- Settlement structure of `startNewTransaction`, read off the source: the
method returns `new Promise(resolve => ...)` whose executor calls
`this.prismaClient.$transaction(callback, opts).catch(...)`; `resolve` is
referenced only inside the transaction callback (it is called right after the
end-signal resolver is installed), and no code path calls a reject function
of the returned promise. The `.catch` handler swallows the internal rollback
sentinel and rethrows anything else, which ends as an unhandled rejection of
that inner chain, not as a settlement of the returned promise. -/
def startNewTransactionFate (b : TxnStartBehavior) : StartOutcome :=
  match b with
  | TxnStartBehavior.callbackInvoked =>
      { fate := PromiseFate.resolved, unhandledRejection := none }
  | TxnStartBehavior.rejectedBeforeCallback e =>
      { fate := PromiseFate.pending
        unhandledRejection := if e = Err.rollbackSentinel then none else some e }

/-- A call tree of `wrapInSavepoint` invocations within one session: each node
is one invocation whose wrapped operation performs the child invocations in
order and then either completes or fails. A flat sequence of top-level calls
is the special case where every node has no children. -/
inductive Plan where
  | node (children : List Plan) (fails : Bool)

mutual

/-- The SQL trace of one `wrapInSavepoint` invocation and the savepoint
counter it leaves behind, with the counter threaded through nested
invocations: the batch release, the savepoint creation with the
post-incremented counter, the children run inside the new ambient scope, and
the rollback-to-savepoint on failure. Mirrors the emission logic of
`wrapInSavepoint` (sharing `batchReleaseCmds`), for a session whose
transaction client stays `c` throughout. -/
def runPlan (c : ClientId) (n : Nat) : Plan → List SqlCmd × Nat
  | Plan.node children fails =>
      let pre := batchReleaseCmds c n
      let rest := runPlans c (n + 1) children
      let post := if fails then [SqlCmd.rollbackTo c n] else []
      (pre ++ SqlCmd.savepoint c n :: (rest.1 ++ post), rest.2)

/-- Sequential execution of sibling invocations, threading the counter. -/
def runPlans (c : ClientId) (n : Nat) : List Plan → List SqlCmd × Nat
  | [] => ([], n)
  | p :: ps =>
      let first := runPlan c n p
      let rest := runPlans c first.2 ps
      (first.1 ++ rest.1, rest.2)

end

/-- Postgres savepoint semantics at the interface the spec assumes: creating
a savepoint adds it to the set of live savepoints; releasing one also
releases every savepoint established after it; rolling back to one discards
those established after it but keeps the savepoint itself. -/
def applyCmd (live : Finset ℕ) : SqlCmd → Finset ℕ
  | SqlCmd.savepoint _ n => insert n live
  | SqlCmd.release _ n => live.filter (fun m => m < n)
  | SqlCmd.rollbackTo _ n => live.filter (fun m => m ≤ n)

/-- The live savepoint set after issuing a command sequence, starting from
`live`. -/
def foldLive (live : Finset ℕ) (t : List SqlCmd) : Finset ℕ :=
  t.foldl applyCmd live

/-- The lower bound on ordinals of live savepoints once the counter stands at
`n`: the threshold of the most recent batch release. -/
def batchFloor (n : Nat) : Nat :=
  if n = 0 then 0 else MAX_ACTIVE_SAVEPOINTS * ((n - 1) / MAX_ACTIVE_SAVEPOINTS)

/-- A helper instance as constructed, before any session. -/
def freshHelper : HState :=
  { currentClient := none, endSignal := none, savepointId := 0,
    transactionLock := none, nextLockId := 0 }

/-- The state after `startNewTransaction` opened a session on transaction
client 5 with end-signal resolver 0. -/
def sessionState : HState := (startNewTransactionStep freshHelper 5 0).state

/-- The state after that session was ended by `rollbackCurrentTransaction`. -/
def afterRollback : HState := (rollbackCurrentTransaction sessionState).state

theorem wrap_result_eq (s : HState) (c : ClientId) (ambient : Option String)
    (fr : Except Err Val) (h : s.currentClient = some c) :
    (wrapInSavepoint s ambient (some c) fr).result = fr := by
  cases fr <;> simp [wrapInSavepoint, h]

theorem wrap_trace_ok (s : HState) (c : ClientId) (ambient : Option String)
    (v : Val) (h : s.currentClient = some c) :
    (wrapInSavepoint s ambient (some c) (Except.ok v)).trace
      = batchReleaseCmds c s.savepointId ++ [SqlCmd.savepoint c s.savepointId] := by
  simp [wrapInSavepoint, h]

theorem wrap_trace_error (s : HState) (c : ClientId) (ambient : Option String)
    (e : Err) (h : s.currentClient = some c) :
    (wrapInSavepoint s ambient (some c) (Except.error e)).trace
      = batchReleaseCmds c s.savepointId ++
          [SqlCmd.savepoint c s.savepointId, SqlCmd.rollbackTo c s.savepointId] := by
  simp [wrapInSavepoint, h]

theorem mem_batchReleaseCmds (cl c : ClientId) (k n : Nat)
    (h : SqlCmd.release cl k ∈ batchReleaseCmds c n) :
    cl = c ∧ MAX_ACTIVE_SAVEPOINTS ≤ n ∧ k = n - MAX_ACTIVE_SAVEPOINTS := by
  unfold batchReleaseCmds at h
  split at h
  · rename_i hcond
    simp only [List.mem_singleton, SqlCmd.release.injEq] at h
    exact ⟨h.1, hcond.1, h.2⟩
  · simp at h

theorem target_batchReleaseCmds (c : ClientId) (n : Nat) (cmd : SqlCmd)
    (h : cmd ∈ batchReleaseCmds c n) : cmd.target = c := by
  unfold batchReleaseCmds at h
  split at h
  · simp only [List.mem_singleton] at h
    subst h; rfl
  · simp at h

/-- Claim C1, counterexample: a `wrapInSavepoint` call in a fresh session
whose wrapped operation succeeds returns the result with a trace consisting
of the savepoint creation only — no release-savepoint command for that
invocation's savepoint (nor any release at all) is issued before the result
is returned. -/
theorem C1_counterexample :
    (wrapInSavepoint
        { currentClient := some 0, endSignal := some 0, savepointId := 0,
          transactionLock := none, nextLockId := 0 } none (some 0)
        (Except.ok (Val.num 37))).result = Except.ok (Val.num 37) ∧
    (wrapInSavepoint
        { currentClient := some 0, endSignal := some 0, savepointId := 0,
          transactionLock := none, nextLockId := 0 } none (some 0)
        (Except.ok (Val.num 37))).trace = [SqlCmd.savepoint 0 0] ∧
    SqlCmd.release 0 0 ∉ (wrapInSavepoint
        { currentClient := some 0, endSignal := some 0, savepointId := 0,
          transactionLock := none, nextLockId := 0 } none (some 0)
        (Except.ok (Val.num 37))).trace := by
  refine ⟨rfl, rfl, ?_⟩
  decide

/-- Claim C1, amended: when the wrapped operation succeeds, `wrapInSavepoint`
returns its result without issuing any release-savepoint for this
invocation's savepoint; every SQL command is issued against the snapshotted
client, the last one issued is this invocation's savepoint creation, and the
only release that can precede it is the batch release of the savepoint
`MAX_ACTIVE_SAVEPOINTS` positions older. -/
theorem C1_success_no_release (s : HState) (c : ClientId)
    (ambient : Option String) (v : Val) (h : s.currentClient = some c) :
    (wrapInSavepoint s ambient (some c) (Except.ok v)).result = Except.ok v ∧
    (∀ cl k, SqlCmd.release cl k ∈
        (wrapInSavepoint s ambient (some c) (Except.ok v)).trace →
      cl = c ∧ MAX_ACTIVE_SAVEPOINTS ≤ s.savepointId ∧
        k = s.savepointId - MAX_ACTIVE_SAVEPOINTS) ∧
    SqlCmd.release c s.savepointId ∉
      (wrapInSavepoint s ambient (some c) (Except.ok v)).trace ∧
    (∀ cmd ∈ (wrapInSavepoint s ambient (some c) (Except.ok v)).trace,
      cmd.target = c) ∧
    (wrapInSavepoint s ambient (some c) (Except.ok v)).trace.getLast?
      = some (SqlCmd.savepoint c s.savepointId) := by
  have htr := wrap_trace_ok s c ambient v h
  have hrel : ∀ cl k, SqlCmd.release cl k ∈
      (wrapInSavepoint s ambient (some c) (Except.ok v)).trace →
      cl = c ∧ MAX_ACTIVE_SAVEPOINTS ≤ s.savepointId ∧
        k = s.savepointId - MAX_ACTIVE_SAVEPOINTS := by
    intro cl k hk
    rw [htr] at hk
    rcases List.mem_append.mp hk with hk | hk
    · exact mem_batchReleaseCmds cl c k s.savepointId hk
    · simp at hk
  refine ⟨wrap_result_eq s c ambient _ h, hrel, ?_, ?_, ?_⟩
  · intro hk
    rcases hrel c s.savepointId hk with ⟨-, hle, hkeq⟩
    have h56 : MAX_ACTIVE_SAVEPOINTS = 56 := rfl
    omega
  · intro cmd hcmd
    rw [htr] at hcmd
    rcases List.mem_append.mp hcmd with hcmd | hcmd
    · exact target_batchReleaseCmds c s.savepointId cmd hcmd
    · simp only [List.mem_singleton] at hcmd
      subst hcmd; rfl
  · rw [htr, List.getLast?_concat]

/-- Claim C1, witness for the amended theorem at a concrete input (session
open on client 3, savepoint counter 60). -/
theorem C1_success_no_release_witness :
    (wrapInSavepoint
        { currentClient := some 3, endSignal := some 0, savepointId := 60,
          transactionLock := none, nextLockId := 0 } none (some 3)
        (Except.ok (Val.num 5))).result = Except.ok (Val.num 5) ∧
    (∀ cl k, SqlCmd.release cl k ∈
        (wrapInSavepoint
          { currentClient := some 3, endSignal := some 0, savepointId := 60,
            transactionLock := none, nextLockId := 0 } none (some 3)
          (Except.ok (Val.num 5))).trace →
      cl = 3 ∧ MAX_ACTIVE_SAVEPOINTS ≤ 60 ∧ k = 60 - MAX_ACTIVE_SAVEPOINTS) ∧
    SqlCmd.release 3 60 ∉ (wrapInSavepoint
        { currentClient := some 3, endSignal := some 0, savepointId := 60,
          transactionLock := none, nextLockId := 0 } none (some 3)
        (Except.ok (Val.num 5))).trace ∧
    (∀ cmd ∈ (wrapInSavepoint
        { currentClient := some 3, endSignal := some 0, savepointId := 60,
          transactionLock := none, nextLockId := 0 } none (some 3)
        (Except.ok (Val.num 5))).trace, cmd.target = 3) ∧
    (wrapInSavepoint
        { currentClient := some 3, endSignal := some 0, savepointId := 60,
          transactionLock := none, nextLockId := 0 } none (some 3)
        (Except.ok (Val.num 5))).trace.getLast? = some (SqlCmd.savepoint 3 60) :=
  C1_success_no_release
    { currentClient := some 3, endSignal := some 0, savepointId := 60,
      transactionLock := none, nextLockId := 0 } 3 none (Val.num 5) rfl

/-- Claim C2, counterexample: a nested `wrapInSavepoint` call (ambient scope
context showing an enclosing savepoint) made while the Lock is held neither
acquires nor resolves any lock promise, yet does not leave the Lock's state
unchanged: its guaranteed-cleanup path unconditionally clears the lock slot
from `some 7` to `none`. -/
theorem C2_counterexample :
    (wrapInSavepoint
        { currentClient := some 0, endSignal := some 0, savepointId := 5,
          transactionLock := some 7, nextLockId := 8 } (some (savepointName 4))
        (some 0) (Except.ok (Val.num 1))).lockAcquired = none ∧
    (wrapInSavepoint
        { currentClient := some 0, endSignal := some 0, savepointId := 5,
          transactionLock := some 7, nextLockId := 8 } (some (savepointName 4))
        (some 0) (Except.ok (Val.num 1))).lockResolved = none ∧
    ({ currentClient := some 0, endSignal := some 0, savepointId := 5,
       transactionLock := some 7, nextLockId := 8 } : HState).transactionLock
      = some 7 ∧
    (wrapInSavepoint
        { currentClient := some 0, endSignal := some 0, savepointId := 5,
          transactionLock := some 7, nextLockId := 8 } (some (savepointName 4))
        (some 0) (Except.ok (Val.num 1))).state.transactionLock = none ∧
    (wrapInSavepoint
        { currentClient := some 0, endSignal := some 0, savepointId := 5,
          transactionLock := some 7, nextLockId := 8 } (some (savepointName 4))
        (some 0) (Except.ok (Val.num 1))).state.transactionLock
      ≠ ({ currentClient := some 0, endSignal := some 0, savepointId := 5,
           transactionLock := some 7, nextLockId := 8 } : HState).transactionLock := by
  refine ⟨rfl, rfl, rfl, rfl, ?_⟩
  decide

/-- Claim C2, amended: when the ambient scope context shows an enclosing
savepoint, `wrapInSavepoint` neither acquires the Lock nor resolves any lock
promise; when it shows none, the call installs one fresh lock promise
(waiting first exactly when the slot was occupied) and resolves exactly that
promise on exit, on success and failure alike. In both cases the
guaranteed-cleanup path unconditionally sets the lock slot to `none`, so a
nested call does not leave the Lock's slot unchanged when the lock was
held. -/
theorem C2_lock_discipline (s : HState) (ambient : Option String)
    (clientAtCheck : Option ClientId) (funcResult : Except Err Val) :
    (wrapInSavepoint s ambient clientAtCheck funcResult).lockAcquired
      = (if ambient.isSome then none else some s.nextLockId) ∧
    (wrapInSavepoint s ambient clientAtCheck funcResult).lockResolved
      = (if ambient.isSome then none else some s.nextLockId) ∧
    (wrapInSavepoint s ambient clientAtCheck funcResult).waited
      = (!ambient.isSome && s.transactionLock.isSome) ∧
    (wrapInSavepoint s ambient clientAtCheck funcResult).state.transactionLock
      = none := by
  refine ⟨rfl, rfl, rfl, rfl⟩

/-- Claim C3, counterexample: after `rollbackCurrentTransaction` ends the
session, the stored transaction client is still present, so a capability
access that exists on the (stale) transaction client is routed to it, not
forwarded to the original client. -/
theorem C3_counterexample :
    afterRollback.endSignal = none ∧
    afterRollback.currentClient = some 5 ∧
    proxyGet afterRollback
        { frozen := false, isTransactionProp := false,
          onTransactionClient := true, delegateLike := false }
      = Route.transactionClientValue ∧
    proxyGet afterRollback
        { frozen := false, isTransactionProp := false,
          onTransactionClient := true, delegateLike := false }
      ≠ Route.original := by
  refine ⟨rfl, rfl, rfl, ?_⟩
  decide

/-- Claim C3, amended: `rollbackCurrentTransaction` invokes and clears only
the stored end-signal; the stored transaction client and savepoint counter
are not cleared, so every capability access on the routed proxy handle is
routed exactly as it was before the rollback (in particular, accesses that
resolve on the stale transaction client keep going there until the next
`startNewTransaction` replaces it). -/
theorem C3_rollback_keeps_routing (s : HState) (sig : Nat)
    (h : s.endSignal = some sig) :
    (rollbackCurrentTransaction s).result = Except.ok () ∧
    (rollbackCurrentTransaction s).signaled = some sig ∧
    (rollbackCurrentTransaction s).state.endSignal = none ∧
    (rollbackCurrentTransaction s).state.currentClient = s.currentClient ∧
    (rollbackCurrentTransaction s).state.savepointId = s.savepointId ∧
    (∀ v : PropView, proxyGet (rollbackCurrentTransaction s).state v
      = proxyGet s v) := by
  refine ⟨?_, ?_, ?_, ?_, ?_, ?_⟩ <;>
    simp [rollbackCurrentTransaction, h, proxyGet]

/-- Claim C3, witness for the amended theorem: the session opened by
`startNewTransaction` on client 5 with resolver 0. -/
theorem C3_rollback_keeps_routing_witness :
    (rollbackCurrentTransaction sessionState).result = Except.ok () ∧
    (rollbackCurrentTransaction sessionState).signaled = some 0 ∧
    (rollbackCurrentTransaction sessionState).state.endSignal = none ∧
    (rollbackCurrentTransaction sessionState).state.currentClient
      = sessionState.currentClient ∧
    (rollbackCurrentTransaction sessionState).state.savepointId
      = sessionState.savepointId ∧
    (∀ v : PropView, proxyGet (rollbackCurrentTransaction sessionState).state v
      = proxyGet sessionState v) :=
  C3_rollback_keeps_routing sessionState 0 rfl

/-- Claim C5: when the wrapped operation fails, `wrapInSavepoint` issues a
rollback-to-savepoint for this invocation's savepoint — the last SQL command
of the call, issued after the savepoint creation and against the snapshotted
client — and then re-raises the original failure unchanged. -/
theorem C5_failure_rollback_rethrow (s : HState) (c : ClientId)
    (ambient : Option String) (e : Err) (h : s.currentClient = some c) :
    (wrapInSavepoint s ambient (some c) (Except.error e)).result
      = Except.error e ∧
    SqlCmd.savepoint c s.savepointId ∈
      (wrapInSavepoint s ambient (some c) (Except.error e)).trace ∧
    (∀ cmd ∈ (wrapInSavepoint s ambient (some c) (Except.error e)).trace,
      cmd.target = c) ∧
    (wrapInSavepoint s ambient (some c) (Except.error e)).trace.getLast?
      = some (SqlCmd.rollbackTo c s.savepointId) := by
  have htr := wrap_trace_error s c ambient e h
  refine ⟨wrap_result_eq s c ambient _ h, ?_, ?_, ?_⟩
  · rw [htr]
    simp
  · intro cmd hcmd
    rw [htr] at hcmd
    rcases List.mem_append.mp hcmd with hcmd | hcmd
    · exact target_batchReleaseCmds c s.savepointId cmd hcmd
    · cases hcmd with
      | head => rfl
      | tail _ h2 =>
        cases h2 with
        | head => rfl
        | tail _ h3 => cases h3
  · rw [htr,
      show batchReleaseCmds c s.savepointId ++
          [SqlCmd.savepoint c s.savepointId, SqlCmd.rollbackTo c s.savepointId]
        = (batchReleaseCmds c s.savepointId ++ [SqlCmd.savepoint c s.savepointId])
            ++ [SqlCmd.rollbackTo c s.savepointId] by simp,
      List.getLast?_concat]

/-- Claim C5, witness at a concrete input: session on client 3, counter 2, a
wrapped operation failing with user error 9. -/
theorem C5_failure_rollback_rethrow_witness :
    (wrapInSavepoint
        { currentClient := some 3, endSignal := some 0, savepointId := 2,
          transactionLock := none, nextLockId := 0 } none (some 3)
        (Except.error (Err.user 9))).result = Except.error (Err.user 9) ∧
    SqlCmd.savepoint 3 2 ∈ (wrapInSavepoint
        { currentClient := some 3, endSignal := some 0, savepointId := 2,
          transactionLock := none, nextLockId := 0 } none (some 3)
        (Except.error (Err.user 9))).trace ∧
    (∀ cmd ∈ (wrapInSavepoint
        { currentClient := some 3, endSignal := some 0, savepointId := 2,
          transactionLock := none, nextLockId := 0 } none (some 3)
        (Except.error (Err.user 9))).trace, cmd.target = 3) ∧
    (wrapInSavepoint
        { currentClient := some 3, endSignal := some 0, savepointId := 2,
          transactionLock := none, nextLockId := 0 } none (some 3)
        (Except.error (Err.user 9))).trace.getLast?
      = some (SqlCmd.rollbackTo 3 2) :=
  C5_failure_rollback_rethrow
    { currentClient := some 3, endSignal := some 0, savepointId := 2,
      transactionLock := none, nextLockId := 0 } 3 none (Err.user 9) rfl

/-- Claim C6: calling `startNewTransaction` while a session is open (an
end-signal resolver is stored) fails with the already-active error before
touching any state: client, end signal and savepoint counter of the first
session are left exactly as they were. -/
theorem C6_already_active_no_change (s : HState) (newClient : ClientId)
    (newSignal sig : Nat) (h : s.endSignal = some sig) :
    (startNewTransactionStep s newClient newSignal).result
      = Except.error Err.alreadyActive ∧
    (startNewTransactionStep s newClient newSignal).state = s ∧
    (startNewTransactionStep s newClient newSignal).signaled = none := by
  simp [startNewTransactionStep, h]

/-- Claim C6, witness: a second `startNewTransaction` on the open session
`sessionState`. -/
theorem C6_already_active_no_change_witness :
    (startNewTransactionStep sessionState 9 1).result
      = Except.error Err.alreadyActive ∧
    (startNewTransactionStep sessionState 9 1).state = sessionState ∧
    (startNewTransactionStep sessionState 9 1).signaled = none :=
  C6_already_active_no_change sessionState 9 1 0 rfl

/-- Claim C7, counterexample: in the state reached by
`startNewTransaction` followed by `rollbackCurrentTransaction` no session is
open (no end signal is stored, and a second rollback duly fails with the
no-active-transaction error), yet a savepoint operation in that state does
not fail with the no-active-transaction error: the stale transaction client
is still stored, so `wrapInSavepoint` proceeds against it and succeeds. -/
theorem C7_counterexample :
    afterRollback.endSignal = none ∧
    (rollbackCurrentTransaction afterRollback).result
      = Except.error Err.noActiveTransaction ∧
    (wrapInSavepoint afterRollback none (some 5) (Except.ok (Val.num 1))).result
      = Except.ok (Val.num 1) ∧
    (wrapInSavepoint afterRollback none (some 5) (Except.ok (Val.num 1))).result
      ≠ Except.error Err.noActiveTransaction ∧
    (wrapInSavepoint afterRollback none (some 5) (Except.ok (Val.num 1))).trace
      = [SqlCmd.savepoint 5 0] := by
  refine ⟨rfl, rfl, rfl, ?_, rfl⟩
  decide

/-- Claim C7, amended: `rollbackCurrentTransaction` with no session open
fails with the no-active-transaction error; a savepoint operation fails with
that error precisely when no transaction client is stored — which holds
before the first `startNewTransaction` but not after a rollback, since the
stale client reference is not cleared. This theorem covers the
pre-first-session states, where both parts of the claim hold and no SQL is
issued. -/
theorem C7_no_session_errors (s : HState) (ambient : Option String)
    (clientAtCheck : Option ClientId) (funcResult : Except Err Val)
    (h1 : s.endSignal = none) (h2 : s.currentClient = none) :
    (rollbackCurrentTransaction s).result
      = Except.error Err.noActiveTransaction ∧
    (wrapInSavepoint s ambient clientAtCheck funcResult).result
      = Except.error Err.noActiveTransaction ∧
    (wrapInSavepoint s ambient clientAtCheck funcResult).trace = [] := by
  refine ⟨?_, ?_, ?_⟩ <;> simp [rollbackCurrentTransaction, wrapInSavepoint, h1, h2]

/-- Claim C7, witness: the fresh helper state, before any session. -/
theorem C7_no_session_errors_witness :
    (rollbackCurrentTransaction freshHelper).result
      = Except.error Err.noActiveTransaction ∧
    (wrapInSavepoint freshHelper none none (Except.ok (Val.num 1))).result
      = Except.error Err.noActiveTransaction ∧
    (wrapInSavepoint freshHelper none none (Except.ok (Val.num 1))).trace = [] :=
  C7_no_session_errors freshHelper none none (Except.ok (Val.num 1)) rfl rfl

/-- Claim C8: when the transaction client observed at the check inside the
`try` block differs from the snapshot taken on entry, `wrapInSavepoint` fails
with the transaction-changed error and issues no SQL at all. -/
theorem C8_transaction_changed_guard (s : HState) (c : ClientId)
    (ambient : Option String) (clientAtCheck : Option ClientId)
    (funcResult : Except Err Val) (h1 : s.currentClient = some c)
    (h2 : clientAtCheck ≠ some c) :
    (wrapInSavepoint s ambient clientAtCheck funcResult).result
      = Except.error Err.transactionChanged ∧
    (wrapInSavepoint s ambient clientAtCheck funcResult).trace = [] := by
  refine ⟨?_, ?_⟩ <;> simp [wrapInSavepoint, h1, h2]

/-- Claim C8, witness: the session snapshot is client 0, but by the time the
snapshot is used the live session is client 1. -/
theorem C8_transaction_changed_guard_witness :
    (wrapInSavepoint
        { currentClient := some 0, endSignal := some 0, savepointId := 4,
          transactionLock := none, nextLockId := 0 } none (some 1)
        (Except.ok (Val.num 2))).result = Except.error Err.transactionChanged ∧
    (wrapInSavepoint
        { currentClient := some 0, endSignal := some 0, savepointId := 4,
          transactionLock := none, nextLockId := 0 } none (some 1)
        (Except.ok (Val.num 2))).trace = [] :=
  C8_transaction_changed_guard
    { currentClient := some 0, endSignal := some 0, savepointId := 4,
      transactionLock := none, nextLockId := 0 } 0 none (some 1)
    (Except.ok (Val.num 2)) rfl (by decide)

/-- Whether a command creates a savepoint. -/
def isCreate : SqlCmd → Bool
  | SqlCmd.savepoint _ _ => true
  | _ => false

theorem collectQueries_map_ok (vs : List Nat) :
    collectQueries (vs.map Except.ok) = Except.ok vs := by
  induction vs with
  | nil => rfl
  | cons v rest ih => simp [collectQueries, ih]

theorem filter_isCreate_batch (c : ClientId) (n : Nat) :
    (batchReleaseCmds c n).filter isCreate = [] := by
  unfold batchReleaseCmds
  split <;> simp [isCreate]

/-- Claim C9: the proxied `$transaction` accepts exactly the two argument
shapes. A list of deferred operations is awaited in order with the results
collected positionally, inside one shared savepoint (exactly one savepoint
creation in the whole call's trace); a callback is invoked with the stored
transaction client and its outcome passed through; any other shape fails
with the invalid-argument error. -/
theorem C9_transaction_arg_shapes (s : HState) (c : ClientId)
    (ambient : Option String) (vs : List Nat)
    (f : Option ClientId → Except Err Val) (h : s.currentClient = some c) :
    (transactionProxyFunction s ambient (some c)
        (TxnArg.queries (vs.map Except.ok))).result = Except.ok (Val.vlist vs) ∧
    ((transactionProxyFunction s ambient (some c)
        (TxnArg.queries (vs.map Except.ok))).trace.filter isCreate)
      = [SqlCmd.savepoint c s.savepointId] ∧
    (transactionProxyFunction s ambient (some c) (TxnArg.callback f)).result
      = f (some c) ∧
    ((transactionProxyFunction s ambient (some c)
        (TxnArg.callback f)).trace.filter isCreate)
      = [SqlCmd.savepoint c s.savepointId] ∧
    (transactionProxyFunction s ambient (some c) TxnArg.other).result
      = Except.error Err.invalidTransactionArgument := by
  have hq : transactionBody s.currentClient (TxnArg.queries (vs.map Except.ok))
      = Except.ok (Val.vlist vs) := by
    simp [transactionBody, collectQueries_map_ok, Except.map]
  have hfilter : ∀ fr : Except Err Val,
      ((wrapInSavepoint s ambient (some c) fr).trace.filter isCreate)
        = [SqlCmd.savepoint c s.savepointId] := by
    intro fr
    cases fr with
    | ok v =>
        rw [wrap_trace_ok s c ambient v h, List.filter_append,
          filter_isCreate_batch]
        simp [isCreate]
    | error e =>
        rw [wrap_trace_error s c ambient e h, List.filter_append,
          filter_isCreate_batch]
        simp [isCreate]
  refine ⟨?_, ?_, ?_, ?_, ?_⟩
  · rw [transactionProxyFunction, wrap_result_eq s c ambient _ h, hq]
  · rw [transactionProxyFunction, hfilter]
  · rw [transactionProxyFunction, wrap_result_eq s c ambient _ h,
      transactionBody, h]
  · rw [transactionProxyFunction, hfilter]
  · rw [transactionProxyFunction, wrap_result_eq s c ambient _ h]
    rfl

/-- Claim C9, witness: session on client 2, counter 3; batch of three
deferred operations and a callback returning value 7. -/
theorem C9_transaction_arg_shapes_witness :
    (transactionProxyFunction
        { currentClient := some 2, endSignal := some 0, savepointId := 3,
          transactionLock := none, nextLockId := 0 } none (some 2)
        (TxnArg.queries ([1, 2, 3].map Except.ok))).result
      = Except.ok (Val.vlist [1, 2, 3]) ∧
    ((transactionProxyFunction
        { currentClient := some 2, endSignal := some 0, savepointId := 3,
          transactionLock := none, nextLockId := 0 } none (some 2)
        (TxnArg.queries ([1, 2, 3].map Except.ok))).trace.filter isCreate)
      = [SqlCmd.savepoint 2 3] ∧
    (transactionProxyFunction
        { currentClient := some 2, endSignal := some 0, savepointId := 3,
          transactionLock := none, nextLockId := 0 } none (some 2)
        (TxnArg.callback (fun _ => Except.ok (Val.num 7)))).result
      = (fun _ => Except.ok (Val.num 7) : Option ClientId → Except Err Val)
          (some 2) ∧
    ((transactionProxyFunction
        { currentClient := some 2, endSignal := some 0, savepointId := 3,
          transactionLock := none, nextLockId := 0 } none (some 2)
        (TxnArg.callback (fun _ => Except.ok (Val.num 7)))).trace.filter isCreate)
      = [SqlCmd.savepoint 2 3] ∧
    (transactionProxyFunction
        { currentClient := some 2, endSignal := some 0, savepointId := 3,
          transactionLock := none, nextLockId := 0 } none (some 2)
        TxnArg.other).result = Except.error Err.invalidTransactionArgument :=
  C9_transaction_arg_shapes
    { currentClient := some 2, endSignal := some 0, savepointId := 3,
      transactionLock := none, nextLockId := 0 } 2 none [1, 2, 3]
    (fun _ => Except.ok (Val.num 7)) rfl

/-- Claim C10: when the underlying client's transaction-start operation
rejects without ever invoking its callback, the promise returned by
`startNewTransaction` neither resolves nor rejects — the only call sites of
its resolver are inside the transaction callback and it has no rejecter —
so the failure is not surfaced through the returned promise; it ends as an
unhandled rejection of the inner chain instead. -/
theorem C10_start_rejection_unsurfaced (e : Err)
    (h : e ≠ Err.rollbackSentinel) :
    (startNewTransactionFate (TxnStartBehavior.rejectedBeforeCallback e)).fate
      = PromiseFate.pending ∧
    (startNewTransactionFate (TxnStartBehavior.rejectedBeforeCallback e)).fate
      ≠ PromiseFate.resolved ∧
    (∀ e2, (startNewTransactionFate
        (TxnStartBehavior.rejectedBeforeCallback e)).fate
      ≠ PromiseFate.rejected e2) ∧
    (startNewTransactionFate
        (TxnStartBehavior.rejectedBeforeCallback e)).unhandledRejection
      = some e := by
  refine ⟨rfl, ?_, ?_, ?_⟩
  · intro hh
    cases hh
  · intro e2 hh
    cases hh
  · simp [startNewTransactionFate, h]

/-- Claim C10, witness: the underlying transaction-start rejects with user
error 0 before invoking the callback. -/
theorem C10_start_rejection_unsurfaced_witness :
    (startNewTransactionFate
        (TxnStartBehavior.rejectedBeforeCallback (Err.user 0))).fate
      = PromiseFate.pending ∧
    (startNewTransactionFate
        (TxnStartBehavior.rejectedBeforeCallback (Err.user 0))).fate
      ≠ PromiseFate.resolved ∧
    (∀ e2, (startNewTransactionFate
        (TxnStartBehavior.rejectedBeforeCallback (Err.user 0))).fate
      ≠ PromiseFate.rejected e2) ∧
    (startNewTransactionFate
        (TxnStartBehavior.rejectedBeforeCallback (Err.user 0))).unhandledRejection
      = some (Err.user 0) :=
  C10_start_rejection_unsurfaced (Err.user 0) (by decide)

theorem batchFloor_le (n : Nat) : batchFloor n ≤ n := by
  simp only [batchFloor, MAX_ACTIVE_SAVEPOINTS]
  split <;> omega

theorem card_Ico_batchFloor_le (n : Nat) :
    (Finset.Ico (batchFloor n) n).card ≤ MAX_ACTIVE_SAVEPOINTS := by
  rw [Nat.card_Ico]
  simp only [batchFloor, MAX_ACTIVE_SAVEPOINTS]
  split <;> omega

theorem batchFloor_trigger (n : Nat)
    (h : MAX_ACTIVE_SAVEPOINTS ≤ n ∧
      (n - MAX_ACTIVE_SAVEPOINTS) % MAX_ACTIVE_SAVEPOINTS = 0) :
    batchFloor n = n - MAX_ACTIVE_SAVEPOINTS ∧ batchFloor (n + 1) = n := by
  have hMAX : MAX_ACTIVE_SAVEPOINTS = 56 := rfl
  rw [hMAX] at h ⊢
  simp only [batchFloor, hMAX]
  constructor
  · split <;> omega
  · split <;> omega

theorem batchFloor_no_trigger (n : Nat)
    (h : ¬(MAX_ACTIVE_SAVEPOINTS ≤ n ∧
      (n - MAX_ACTIVE_SAVEPOINTS) % MAX_ACTIVE_SAVEPOINTS = 0)) :
    batchFloor (n + 1) = batchFloor n := by
  have hMAX : MAX_ACTIVE_SAVEPOINTS = 56 := rfl
  rw [hMAX] at h
  simp only [batchFloor, hMAX]
  split <;> split <;> omega

theorem foldLive_append (live : Finset ℕ) (t u : List SqlCmd) :
    foldLive live (t ++ u) = foldLive (foldLive live t) u :=
  List.foldl_append applyCmd live t u

/-- Every prefix of the command sequence, starting from live set `live`,
keeps the live savepoint count within `MAX_ACTIVE_SAVEPOINTS`. -/
def CardBounded (live : Finset ℕ) (t : List SqlCmd) : Prop :=
  ∀ t₁ t₂, t = t₁ ++ t₂ → (foldLive live t₁).card ≤ MAX_ACTIVE_SAVEPOINTS

/-- Every release in the command sequence that happens with the live set at
full capacity releases the oldest live savepoint and is immediately followed
by the creation of the new savepoint `MAX_ACTIVE_SAVEPOINTS` positions
later. -/
def RelSeq (live : Finset ℕ) (t : List SqlCmd) : Prop :=
  ∀ t₁ cl k t₂, t = t₁ ++ SqlCmd.release cl k :: t₂ →
    (foldLive live t₁).card = MAX_ACTIVE_SAVEPOINTS →
    k ∈ foldLive live t₁ ∧ (∀ m ∈ foldLive live t₁, k ≤ m) ∧
      ∃ t₃, t₂ = SqlCmd.savepoint cl (k + MAX_ACTIVE_SAVEPOINTS) :: t₃

theorem cardBounded_nil (live : Finset ℕ) (h : live.card ≤ MAX_ACTIVE_SAVEPOINTS) :
    CardBounded live [] := by
  intro t₁ t₂ heq
  rcases List.append_eq_nil.mp heq.symm with ⟨h1, h2⟩
  subst h1
  exact h

theorem cardBounded_cons (live : Finset ℕ) (x : SqlCmd) (rest : List SqlCmd)
    (h0 : live.card ≤ MAX_ACTIVE_SAVEPOINTS)
    (h1 : CardBounded (applyCmd live x) rest) : CardBounded live (x :: rest) := by
  intro t₁ t₂ heq
  rcases List.cons_eq_append_iff.mp heq with ⟨ht₁, ht₂⟩ | ⟨a', ha, hrest⟩
  · subst ht₁
    exact h0
  · subst ha
    exact h1 a' t₂ hrest

theorem cardBounded_append (live : Finset ℕ) (t u : List SqlCmd)
    (h1 : CardBounded live t) (h2 : CardBounded (foldLive live t) u) :
    CardBounded live (t ++ u) := by
  intro t₁ t₂ heq
  rcases List.append_eq_append_iff.mp heq with ⟨a', ht₁, hu⟩ | ⟨c', ht, ht₂⟩
  · rw [ht₁, foldLive_append]
    exact h2 a' t₂ hu
  · exact h1 t₁ c' ht

theorem relSeq_nil (live : Finset ℕ) : RelSeq live [] := by
  intro t₁ cl k t₂ heq
  exact absurd heq.symm (by simp)

theorem relSeq_cons_not_release (live : Finset ℕ) (x : SqlCmd)
    (rest : List SqlCmd) (hx : ∀ cl k, x ≠ SqlCmd.release cl k)
    (h : RelSeq (applyCmd live x) rest) : RelSeq live (x :: rest) := by
  intro t₁ cl k t₂ heq hcard
  rcases List.cons_eq_append_iff.mp heq with ⟨ht₁, ht₂⟩ | ⟨a', ha, hrest⟩
  · exact absurd (List.head_eq_of_cons_eq ht₂.symm) (hx cl k)
  · subst ha
    exact h a' cl k t₂ hrest hcard

theorem relSeq_append (live : Finset ℕ) (t u : List SqlCmd)
    (h1 : RelSeq live t) (h2 : RelSeq (foldLive live t) u) :
    RelSeq live (t ++ u) := by
  intro t₁ cl k t₂ heq hcard
  rcases List.append_eq_append_iff.mp heq with ⟨a', ht₁, hu⟩ | ⟨c', ht, hsplit⟩
  · subst ht₁
    rw [foldLive_append] at hcard ⊢
    exact h2 a' cl k t₂ hu hcard
  · cases c' with
    | nil =>
        rw [List.append_nil] at ht
        subst ht
        have hu' : u = [] ++ SqlCmd.release cl k :: t₂ := by
          simpa using hsplit.symm
        have := h2 [] cl k t₂ hu' hcard
        exact this
    | cons y c'' =>
        have hy : SqlCmd.release cl k = y := List.head_eq_of_cons_eq hsplit
        have ht₂ : t₂ = c'' ++ u := List.tail_eq_of_cons_eq hsplit
        subst ht₂
        rcases h1 t₁ cl k c'' (by rw [ht, ← hy]) hcard with ⟨hk, hmin, t₃, ht₃⟩
        exact ⟨hk, hmin, t₃ ++ u, by rw [ht₃, List.cons_append]⟩

theorem foldLive_cons (live : Finset ℕ) (x : SqlCmd) (t : List SqlCmd) :
    foldLive live (x :: t) = foldLive (applyCmd live x) t := rfl

theorem card_foldLive_batch_le (c : ClientId) (n : Nat) (live : Finset ℕ) :
    (foldLive live (batchReleaseCmds c n)).card ≤ live.card := by
  simp only [batchReleaseCmds]
  split
  · exact Finset.card_filter_le live _
  · exact le_refl _

theorem cardBounded_batch (c : ClientId) (n : Nat) (live : Finset ℕ)
    (h0 : live.card ≤ MAX_ACTIVE_SAVEPOINTS) :
    CardBounded live (batchReleaseCmds c n) := by
  simp only [batchReleaseCmds]
  split
  · exact cardBounded_cons live _ [] h0
      (cardBounded_nil _ (le_trans (Finset.card_filter_le live _) h0))
  · exact cardBounded_nil live h0

theorem liveAfterCreate_subset (c : ClientId) (n : Nat) (live : Finset ℕ)
    (h : live ⊆ Finset.Ico (batchFloor n) n) :
    applyCmd (foldLive live (batchReleaseCmds c n)) (SqlCmd.savepoint c n)
      ⊆ Finset.Ico (batchFloor (n + 1)) (n + 1) := by
  by_cases htrig : MAX_ACTIVE_SAVEPOINTS ≤ n ∧
      (n - MAX_ACTIVE_SAVEPOINTS) % MAX_ACTIVE_SAVEPOINTS = 0
  · have hpre : batchReleaseCmds c n
        = [SqlCmd.release c (n - MAX_ACTIVE_SAVEPOINTS)] := by
      simp only [batchReleaseCmds]
      rw [if_pos htrig]
    have hbf := batchFloor_trigger n htrig
    rw [hpre]
    intro m hm
    simp only [foldLive, List.foldl_cons, List.foldl_nil, applyCmd,
      Finset.mem_insert, Finset.mem_filter] at hm
    rcases hm with hm | ⟨hmlive, hmlt⟩
    · subst hm
      rw [hbf.2, Finset.mem_Ico]
      omega
    · have := h hmlive
      rw [Finset.mem_Ico, hbf.1] at this
      omega
  · have hpre : batchReleaseCmds c n = [] := by
      simp only [batchReleaseCmds]
      rw [if_neg htrig]
    have hbf := batchFloor_no_trigger n htrig
    rw [hpre]
    intro m hm
    simp only [foldLive, List.foldl_nil, applyCmd, Finset.mem_insert] at hm
    rw [hbf, Finset.mem_Ico]
    rcases hm with hm | hm
    · have hble := batchFloor_le n
      omega
    · have hmem := h hm
      rw [Finset.mem_Ico] at hmem
      omega

theorem node_assemble (c : ClientId) (n n' : Nat) (live : Finset ℕ)
    (ct post : List SqlCmd)
    (h : live ⊆ Finset.Ico (batchFloor n) n)
    (hctsub : foldLive (applyCmd (foldLive live (batchReleaseCmds c n))
        (SqlCmd.savepoint c n)) ct ⊆ Finset.Ico (batchFloor n') n')
    (hctcard : CardBounded (applyCmd (foldLive live (batchReleaseCmds c n))
        (SqlCmd.savepoint c n)) ct)
    (hctrel : RelSeq (applyCmd (foldLive live (batchReleaseCmds c n))
        (SqlCmd.savepoint c n)) ct)
    (hpost : post = [] ∨ post = [SqlCmd.rollbackTo c n]) :
    foldLive live (batchReleaseCmds c n ++ SqlCmd.savepoint c n :: (ct ++ post))
      ⊆ Finset.Ico (batchFloor n') n' ∧
    CardBounded live
      (batchReleaseCmds c n ++ SqlCmd.savepoint c n :: (ct ++ post)) ∧
    RelSeq live (batchReleaseCmds c n ++ SqlCmd.savepoint c n :: (ct ++ post)) := by
  have hlivecard : live.card ≤ MAX_ACTIVE_SAVEPOINTS :=
    le_trans (Finset.card_le_card h) (card_Ico_batchFloor_le n)
  have hctcardle : (foldLive (applyCmd (foldLive live (batchReleaseCmds c n))
      (SqlCmd.savepoint c n)) ct).card ≤ MAX_ACTIVE_SAVEPOINTS :=
    le_trans (Finset.card_le_card hctsub) (card_Ico_batchFloor_le n')
  refine ⟨?_, ?_, ?_⟩
  · rw [foldLive_append, foldLive_cons, foldLive_append]
    rcases hpost with hp | hp <;> subst hp
    · exact hctsub
    · exact Finset.Subset.trans (Finset.filter_subset _ _) hctsub
  · refine cardBounded_append live _ _ (cardBounded_batch c n live hlivecard) ?_
    refine cardBounded_cons _ _ _
      (le_trans (card_foldLive_batch_le c n live) hlivecard) ?_
    refine cardBounded_append _ _ _ hctcard ?_
    rcases hpost with hp | hp <;> subst hp
    · exact cardBounded_nil _ hctcardle
    · exact cardBounded_cons _ _ _ hctcardle
        (cardBounded_nil _ (le_trans (Finset.card_filter_le _ _) hctcardle))
  · have hrelrest : RelSeq (applyCmd (foldLive live (batchReleaseCmds c n))
        (SqlCmd.savepoint c n)) (ct ++ post) := by
      refine relSeq_append _ _ _ hctrel ?_
      rcases hpost with hp | hp <;> subst hp
      · exact relSeq_nil _
      · exact relSeq_cons_not_release _ _ _
          (fun cl k hk => SqlCmd.noConfusion hk) (relSeq_nil _)
    have hrelsp : RelSeq (foldLive live (batchReleaseCmds c n))
        (SqlCmd.savepoint c n :: (ct ++ post)) :=
      relSeq_cons_not_release _ _ _
        (fun cl k hk => SqlCmd.noConfusion hk) hrelrest
    by_cases htrig : MAX_ACTIVE_SAVEPOINTS ≤ n ∧
        (n - MAX_ACTIVE_SAVEPOINTS) % MAX_ACTIVE_SAVEPOINTS = 0
    · have hpre : batchReleaseCmds c n
          = [SqlCmd.release c (n - MAX_ACTIVE_SAVEPOINTS)] := by
        simp only [batchReleaseCmds]
        rw [if_pos htrig]
      rw [hpre]
      rw [hpre] at hrelsp
      intro t₁ cl k t₂ heq hcard
      rcases List.cons_eq_append_iff.mp heq with ⟨ht₁, ht₂⟩ | ⟨a', ha, hrest⟩
      · subst ht₁
        have hhead : SqlCmd.release cl k
            = SqlCmd.release c (n - MAX_ACTIVE_SAVEPOINTS) :=
          List.head_eq_of_cons_eq ht₂
        have htail : t₂ = SqlCmd.savepoint c n :: (ct ++ post) :=
          List.tail_eq_of_cons_eq ht₂
        have hck : cl = c ∧ k = n - MAX_ACTIVE_SAVEPOINTS := by
          simpa [SqlCmd.release.injEq] using hhead
        obtain ⟨hcl, hk⟩ := hck
        have hcard' : live.card = MAX_ACTIVE_SAVEPOINTS := hcard
        have hbf := (batchFloor_trigger n htrig).1
        have hM : MAX_ACTIVE_SAVEPOINTS = 56 := rfl
        have hIco : live = Finset.Ico (n - MAX_ACTIVE_SAVEPOINTS) n := by
          apply Finset.eq_of_subset_of_card_le
          · rw [← hbf]
            exact h
          · rw [Nat.card_Ico, hcard']
            omega
        subst hcl hk
        refine ⟨?_, ?_, ct ++ post, ?_⟩
        · show n - MAX_ACTIVE_SAVEPOINTS ∈ live
          rw [hIco, Finset.mem_Ico]
          omega
        · intro m hm
          have hm' : m ∈ live := hm
          rw [hIco, Finset.mem_Ico] at hm'
          exact hm'.1
        · rw [htail]
          have hsum : n - MAX_ACTIVE_SAVEPOINTS + MAX_ACTIVE_SAVEPOINTS = n := by
            omega
          rw [hsum]
      · subst ha
        exact hrelsp a' cl k t₂ hrest hcard
    · have hpre : batchReleaseCmds c n = [] := by
        simp only [batchReleaseCmds]
        rw [if_neg htrig]
      rw [hpre]
      rw [hpre] at hrelsp
      simpa using hrelsp

mutual

theorem runPlan_spec (c : ClientId) (p : Plan) (n : Nat) (live : Finset ℕ)
    (h : live ⊆ Finset.Ico (batchFloor n) n) :
    n + 1 ≤ (runPlan c n p).2 ∧
    foldLive live (runPlan c n p).1
      ⊆ Finset.Ico (batchFloor (runPlan c n p).2) (runPlan c n p).2 ∧
    CardBounded live (runPlan c n p).1 ∧ RelSeq live (runPlan c n p).1 := by
  cases p with
  | node children fails =>
      have hch := runPlans_spec c children (n + 1)
        (applyCmd (foldLive live (batchReleaseCmds c n)) (SqlCmd.savepoint c n))
        (liveAfterCreate_subset c n live h)
      have hpost : (if fails then [SqlCmd.rollbackTo c n] else []) = [] ∨
          (if fails then [SqlCmd.rollbackTo c n] else [])
            = [SqlCmd.rollbackTo c n] := by
        cases fails <;> simp
      have hasm := node_assemble c n (runPlans c (n + 1) children).2 live
        (runPlans c (n + 1) children).1
        (if fails then [SqlCmd.rollbackTo c n] else []) h hch.2.1 hch.2.2.1
        hch.2.2.2 hpost
      simp only [runPlan]
      exact ⟨hch.1, hasm.1, hasm.2.1, hasm.2.2⟩

theorem runPlans_spec (c : ClientId) (ps : List Plan) (n : Nat) (live : Finset ℕ)
    (h : live ⊆ Finset.Ico (batchFloor n) n) :
    n ≤ (runPlans c n ps).2 ∧
    foldLive live (runPlans c n ps).1
      ⊆ Finset.Ico (batchFloor (runPlans c n ps).2) (runPlans c n ps).2 ∧
    CardBounded live (runPlans c n ps).1 ∧ RelSeq live (runPlans c n ps).1 := by
  cases ps with
  | nil =>
      simp only [runPlans]
      exact ⟨le_refl n, h,
        cardBounded_nil live
          (le_trans (Finset.card_le_card h) (card_Ico_batchFloor_le n)),
        relSeq_nil live⟩
  | cons p ps' =>
      have h1 := runPlan_spec c p n live h
      have h2 := runPlans_spec c ps' (runPlan c n p).2
        (foldLive live (runPlan c n p).1) h1.2.1
      simp only [runPlans]
      refine ⟨le_trans (le_trans (Nat.le_succ n) h1.1) h2.1, ?_, ?_, ?_⟩
      · rw [foldLive_append]
        exact h2.2.1
      · exact cardBounded_append _ _ _ h1.2.2.1 h2.2.2.1
      · exact relSeq_append _ _ _ h1.2.2.2 h2.2.2.2

end

/-- The tree semantics agrees with the single-call embedding on leaves: a
childless node's trace is exactly the trace `wrapInSavepoint` issues for a
succeeding (resp. failing) wrapped operation at the same counter value. -/
theorem runPlan_leaf_trace (c : ClientId) (s : HState) (ambient : Option String)
    (v : Val) (e : Err) (h : s.currentClient = some c) :
    (runPlan c s.savepointId (Plan.node [] false)).1
      = (wrapInSavepoint s ambient (some c) (Except.ok v)).trace ∧
    (runPlan c s.savepointId (Plan.node [] true)).1
      = (wrapInSavepoint s ambient (some c) (Except.error e)).trace := by
  rw [wrap_trace_ok s c ambient v h, wrap_trace_error s c ambient e h]
  constructor <;> simp [runPlan, runPlans]

/-- Claim C4: over every call tree of `wrapInSavepoint` invocations in one
session (counter starting at 0, as set by `startNewTransaction`), the live
savepoint count after every prefix of the issued command sequence never
exceeds the cap plus one in flight; and every release issued while the live
set stands at the cap (when creating the next savepoint would exceed it)
releases the oldest pending savepoint — it is live and minimal — and is
immediately followed by the creation of the new savepoint, whose ordinal is
`MAX_ACTIVE_SAVEPOINTS` above the released one. -/
theorem C4_batch_release_cap (c : ClientId) (ps : List Plan) :
    (∀ t₁ t₂, (runPlans c 0 ps).1 = t₁ ++ t₂ →
      (foldLive ∅ t₁).card ≤ MAX_ACTIVE_SAVEPOINTS + 1) ∧
    (∀ t₁ cl k t₂, (runPlans c 0 ps).1 = t₁ ++ SqlCmd.release cl k :: t₂ →
      (foldLive ∅ t₁).card = MAX_ACTIVE_SAVEPOINTS →
      k ∈ foldLive ∅ t₁ ∧ (∀ m ∈ foldLive ∅ t₁, k ≤ m) ∧
        ∃ t₃, t₂ = SqlCmd.savepoint cl (k + MAX_ACTIVE_SAVEPOINTS) :: t₃) := by
  have hspec := runPlans_spec c ps 0 ∅ (Finset.empty_subset _)
  refine ⟨?_, hspec.2.2.2⟩
  intro t₁ t₂ heq
  exact le_trans (hspec.2.2.1 t₁ t₂ heq) (Nat.le_succ _)

end PrismaTesting
